import Mathlib

/-!
A shallow embedding of `msms/wrapper.py` (the msms_wrapper repository):
the output-parsing data model (`MsmsOutput` and its accessors), the log
scanners `params` and `extract_ses_sas_vol`, the input-shape validation of
`run_msms`, and the small-atom pre-filter `_run_msms_check_small_atoms`.

Python floats are modelled as exact rationals; Python exceptions are
modelled with an `Except PyError` result.  External collaborators
(`numpy.loadtxt`, fancy indexing, `scipy.spatial.KDTree.query`) are
modelled by their documented behaviour on the inputs the wrapper feeds
them.
-/

set_option allowUnsafeReducibility true in
attribute [semireducible] Rat.add Rat.mul Rat.inv Rat.sub Rat.ofScientific

/-- The whitespace characters recognised by Python `str.split()` /
`str.strip()` (the ASCII ones; the wrapper only ever meets ASCII logs). -/
def isPySpace (c : Char) : Bool :=
  c = ' ' || c = '\t' || c = '\n' || c = '\r' || c = '\x0b' || c = '\x0c'

/-- Helper for `pySplitChars`: accumulate the current run of
non-whitespace characters (in reverse) and split at whitespace. -/
def pySplitAux : List Char → List Char → List (List Char)
  | [], acc => if acc.isEmpty then [] else [acc.reverse]
  | c :: cs, acc =>
    if isPySpace c then
      if acc.isEmpty then pySplitAux cs [] else acc.reverse :: pySplitAux cs []
    else pySplitAux cs (c :: acc)

/-- Python `str.split()` with no argument: split on runs of whitespace,
discarding empty fields. -/
def pySplit (s : String) : List String :=
  (pySplitAux s.data []).map String.mk

/-- Strip leading and trailing whitespace from a character list
(Python `str.strip()`). -/
def pyStripChars (l : List Char) : List Char :=
  ((l.dropWhile isPySpace).reverse.dropWhile isPySpace).reverse

/-- Python `str.strip()`. -/
def pyStrip (s : String) : String :=
  String.mk (pyStripChars s.data)

/-- Python `str.startswith(pre)`. -/
def pyStartsWith (s pre : String) : Bool :=
  pre.data.isPrefixOf s.data

/-- Numeric value of an ASCII digit, if `c` is one. -/
def digitVal (c : Char) : Option Nat :=
  if 48 ≤ c.toNat ∧ c.toNat ≤ 57 then some (c.toNat - 48) else none

/-- Consume a run of leading digits: returns the accumulated value, the
number of digits consumed, and the rest of the input. -/
def parseDigits : List Char → Nat → Nat → Nat × Nat × List Char
  | [], v, n => (v, n, [])
  | c :: cs, v, n =>
    match digitVal c with
    | some d => parseDigits cs (10 * v + d) (n + 1)
    | none => (v, n, c :: cs)

/-- Unsigned decimal literal: digits, optionally followed by a point and
more digits, with at least one digit in total and nothing left over. -/
def parseUnsignedFloat (l : List Char) : Option ℚ :=
  match parseDigits l 0 0 with
  | (ip, ni, rest) =>
    match rest with
    | [] => if 0 < ni then some (ip : ℚ) else none
    | '.' :: rest2 =>
      match parseDigits rest2 0 0 with
      | (fp, nf, rest3) =>
        if rest3.isEmpty ∧ 0 < ni + nf then
          some ((ip : ℚ) + (fp : ℚ) / (10 : ℚ) ^ nf)
        else none
    | _ => none

/-- Python `float(s)` as used on the wrapper's log tokens: optional
whitespace, optional sign, plain decimal literal.  (Exponent, `inf` and
`nan` forms never occur in the msms fields the wrapper converts and are
not modelled.)  Failure is Python's `ValueError`. -/
def pyFloat (s : String) : Option ℚ :=
  match pyStripChars s.data with
  | '-' :: l => (parseUnsignedFloat l).map (fun q => -q)
  | '+' :: l => parseUnsignedFloat l
  | l => parseUnsignedFloat l

/-- Python `int(s)` as used by `numpy.loadtxt` on integer columns:
optional whitespace, optional sign, digits only. -/
def pyInt (s : String) : Option ℤ :=
  match pyStripChars s.data with
  | '-' :: l =>
    (match parseDigits l 0 0 with
     | (v, n, rest) => if rest.isEmpty ∧ 0 < n then some (-(v : ℤ)) else none)
  | '+' :: l =>
    (match parseDigits l 0 0 with
     | (v, n, rest) => if rest.isEmpty ∧ 0 < n then some (v : ℤ) else none)
  | l =>
    (match parseDigits l 0 0 with
     | (v, n, rest) => if rest.isEmpty ∧ 0 < n then some (v : ℤ) else none)

/-- The Python exceptions the wrapper can raise or let escape. -/
inductive PyError where
  /-- `ValueError` carrying the given message. -/
  | valueError (msg : String)
  /-- `numpy.loadtxt` failure on a data line that does not match the
  declared dtype. -/
  | loadtxtError
  /-- `StopIteration` escaping from `next()` on an exhausted iterator. -/
  | stopIteration
  /-- `IndexError`: an index is out of bounds. -/
  | indexError
  /-- `TypeError`, e.g. subscripting `None`. -/
  | typeError
  /-- numpy broadcast failure between mismatched array lengths. -/
  | broadcastError
  /-- `scipy.spatial.KDTree` construction failure on data that is not a
  non-empty two-dimensional array. -/
  | kdtreeError
deriving DecidableEq, Repr

instance {ε α : Type} [DecidableEq ε] [DecidableEq α] : DecidableEq (Except ε α) := fun x y =>
  match x, y with
  | Except.error a, Except.error b =>
    if h : a = b then isTrue (by rw [h]) else isFalse (by simp [h])
  | Except.ok a, Except.ok b =>
    if h : a = b then isTrue (by rw [h]) else isFalse (by simp [h])
  | Except.error _, Except.ok _ => isFalse (by simp)
  | Except.ok _, Except.error _ => isFalse (by simp)

/-- Python `float(s)` raising `ValueError` on failure. -/
def pyFloatE (s : String) : Except PyError ℚ :=
  match pyFloat s with
  | some q => Except.ok q
  | none => Except.error (PyError.valueError ("could not convert string to float: " ++ s))

/-- `SurfaceParams = namedtuple("SurfaceParams", "probe_radius density hdensity")`. -/
structure SurfaceParams where
  probe_radius : ℚ
  density : ℚ
  hdensity : ℚ
deriving DecidableEq, Repr

/-- `SizeDescriptors = namedtuple('SizeDescriptors', 'ses sas volume')`. -/
structure SizeDescriptors where
  ses : ℚ
  sas : ℚ
  volume : ℚ
deriving DecidableEq, Repr

/-- The loop body of `MsmsOutput.params`: scan for the first line that
starts with `"PARAM"`; split it and convert tokens 2, 4, 6 with `float`
(each index raising `IndexError` if absent, each conversion `ValueError`
if malformed, in the source's evaluation order); return on the first
match, `None` (here `Option.none`) if the loop falls through. -/
def paramsAux : List String → Except PyError (Option SurfaceParams)
  | [] => Except.ok none
  | line :: rest =>
    if pyStartsWith line "PARAM" then
      match (pySplit line)[2]? with
      | none => Except.error PyError.indexError
      | some t2 =>
        match pyFloatE t2 with
        | Except.error e => Except.error e
        | Except.ok p =>
          match (pySplit line)[4]? with
          | none => Except.error PyError.indexError
          | some t4 =>
            match pyFloatE t4 with
            | Except.error e => Except.error e
            | Except.ok d =>
              match (pySplit line)[6]? with
              | none => Except.error PyError.indexError
              | some t6 =>
                match pyFloatE t6 with
                | Except.error e => Except.error e
                | Except.ok h => Except.ok (some ⟨p, d, h⟩)
    else paramsAux rest

/-- The scanning loop of `MsmsOutput.extract_ses_sas_vol`, over a shared
iterator: a line starting with `"ANALYTICAL SURFACE AREA :"` makes the
loop consume the next line (header) and the one after (data) via
`next()` — raising `StopIteration` when exhausted — and overwrite
`ses`/`sas` with `float` of the data line's tokens 5 and 6; a line whose
stripped text starts with `"Total ses_volume:"` overwrites `volume` with
`float` of the line's token 2.  Neither branch breaks the loop. -/
def extractScan : List String → Option (ℚ × ℚ) → Option ℚ →
    Except PyError (Option (ℚ × ℚ) × Option ℚ)
  | [], sesSas, vol => Except.ok (sesSas, vol)
  | line :: rest, sesSas, vol =>
    if pyStartsWith line "ANALYTICAL SURFACE AREA :" then
      match rest with
      | [] => Except.error PyError.stopIteration
      | [_] => Except.error PyError.stopIteration
      | _ :: dataLine :: rest2 =>
        match (pySplit dataLine)[5]? with
        | none => Except.error PyError.indexError
        | some t5 =>
          match pyFloatE t5 with
          | Except.error e => Except.error e
          | Except.ok ses =>
            match (pySplit dataLine)[6]? with
            | none => Except.error PyError.indexError
            | some t6 =>
              match pyFloatE t6 with
              | Except.error e => Except.error e
              | Except.ok sas => extractScan rest2 (some (ses, sas)) vol
    else if pyStartsWith (pyStrip line) "Total ses_volume:" then
      match (pySplit line)[2]? with
      | none => Except.error PyError.indexError
      | some t2 =>
        match pyFloatE t2 with
        | Except.error e => Except.error e
        | Except.ok v => extractScan rest sesSas (some v)
    else extractScan rest sesSas vol

/-- `MsmsOutput.extract_ses_sas_vol` on a list of log lines: run the scan,
then raise the missing-area `ValueError` if `ses`/`sas` were never set
(they are always set together, so matching on the pair is the source's
`if ses is None or sas is None`), the missing-volume `ValueError` if
`volume` was never set, and otherwise return the `SizeDescriptors`. -/
def extract_ses_sas_vol (log_lines : List String) : Except PyError SizeDescriptors :=
  match extractScan log_lines none none with
  | Except.error e => Except.error e
  | Except.ok (none, _) =>
    Except.error (PyError.valueError "Could not find analytical surface area in the msms output.")
  | Except.ok (some _, none) =>
    Except.error (PyError.valueError "Could not find numerical SES volume in the msms output.")
  | Except.ok (some (ses, sas), some v) => Except.ok ⟨ses, sas, v⟩




/-- One row of the `.vert` table (`MsmsOutput.VERT_DTYPES`): position,
normal, then three integer annotation columns, in source column order. -/
structure VertexRecord where
  x : ℚ
  y : ℚ
  z : ℚ
  nx : ℚ
  ny : ℚ
  nz : ℚ
  vertex_type : ℤ
  closest_sphere : ℤ
  face_type : ℤ
deriving DecidableEq, Repr

/-- One row of the `.face` table (`MsmsOutput.FACE_DTYPES`): the three
1-based vertex indices and two integer annotation columns. -/
structure FaceRecord where
  i : ℤ
  j : ℤ
  k : ℤ
  face_type : ℤ
  face_number : ℤ
deriving DecidableEq, Repr

/-- One row of the `.area` table (`MsmsOutput.AREA_DTYPES`). -/
structure AreaRecord where
  sphere : ℤ
  ses_0 : ℚ
  sas_0 : ℚ
deriving DecidableEq, Repr

/-- The `MsmsOutput` object: log lines plus the parsed tables; `areas`
is `None` unless an area file was supplied. -/
structure MsmsOutput where
  log_lines : List String
  vertices : List VertexRecord
  faces : List FaceRecord
  areas : Option (List AreaRecord) := none
deriving DecidableEq, Repr

/-- Sequential effectful map, modelling an operation that fails as soon
as any element fails (Python exceptions abort the whole expression). -/
def mapExcept (g : α → Except PyError β) : List α → Except PyError (List β)
  | [] => Except.ok []
  | a :: as =>
    match g a with
    | Except.error e => Except.error e
    | Except.ok b =>
      match mapExcept g as with
      | Except.error e => Except.error e
      | Except.ok bs => Except.ok (b :: bs)

/-- `numpy.loadtxt(stream, skiprows, dtype)` on the wrapper's tables:
skip the first `skiprows` lines unconditionally, ignore blank lines, and
convert every remaining data line with the per-line converter `parse`
(a line that does not match the dtype raises). -/
def loadtxt (parse : String → Option α) (skiprows : Nat) (lines : List String) :
    Except PyError (List α) :=
  mapExcept
    (fun l =>
      match parse l with
      | some r => Except.ok r
      | none => Except.error PyError.loadtxtError)
    ((lines.drop skiprows).filter (fun l => pyStrip l ≠ ""))

/-- Convert one `.vert` data line: nine whitespace-separated fields typed
as in `VERT_DTYPES` (six floats, three ints). -/
def parseVertLine (s : String) : Option VertexRecord :=
  match pySplit s with
  | [a, b, c, d, e, f, g, h, i] => do
    let x ← pyFloat a
    let y ← pyFloat b
    let z ← pyFloat c
    let nx ← pyFloat d
    let ny ← pyFloat e
    let nz ← pyFloat f
    let vt ← pyInt g
    let cs ← pyInt h
    let ft ← pyInt i
    pure ⟨x, y, z, nx, ny, nz, vt, cs, ft⟩
  | _ => none

/-- Convert one `.face` data line: five integer fields as in `FACE_DTYPES`. -/
def parseFaceLine (s : String) : Option FaceRecord :=
  match pySplit s with
  | [a, b, c, d, e] => do
    let i ← pyInt a
    let j ← pyInt b
    let k ← pyInt c
    let ft ← pyInt d
    let fn ← pyInt e
    pure ⟨i, j, k, ft, fn⟩
  | _ => none

/-- Convert one `.area` data line: one int and two floats as in
`AREA_DTYPES`. -/
def parseAreaLine (s : String) : Option AreaRecord :=
  match pySplit s with
  | [a, b, c] => do
    let sp ← pyInt a
    let ses ← pyFloat b
    let sas ← pyFloat c
    pure ⟨sp, ses, sas⟩
  | _ => none

/-- `MsmsOutput.from_files`: `loadtxt` the vertex table skipping 3 header
lines, the face table skipping 3, and — only when an area file is given —
the area table skipping 1; keep the log lines verbatim. -/
def MsmsOutput.from_files (log_file vert_file face_file : List String)
    (area_file : Option (List String) := none) : Except PyError MsmsOutput :=
  match loadtxt parseVertLine 3 vert_file with
  | Except.error e => Except.error e
  | Except.ok vert_data =>
    match loadtxt parseFaceLine 3 face_file with
    | Except.error e => Except.error e
    | Except.ok face_data =>
      match area_file with
      | none => Except.ok ⟨log_file, vert_data, face_data, none⟩
      | some af =>
        match loadtxt parseAreaLine 1 af with
        | Except.error e => Except.error e
        | Except.ok area_data => Except.ok ⟨log_file, vert_data, face_data, some area_data⟩

/-- `MsmsOutput.params` runs the PARAM scan over `self.log_lines`. -/
def MsmsOutput.params (o : MsmsOutput) : Except PyError (Option SurfaceParams) :=
  paramsAux o.log_lines

/-- `MsmsOutput.get_face_indices(zero_indexed=True)`: the i, j, k columns
stacked rowwise; with `zero_indexed` every entry is decremented by 1. -/
def MsmsOutput.get_face_indices (o : MsmsOutput) (zero_indexed : Bool := true) :
    List (ℤ × ℤ × ℤ) :=
  let out := o.faces.map (fun f => (f.i, f.j, f.k))
  if zero_indexed then out.map (fun t => (t.1 - 1, t.2.1 - 1, t.2.2 - 1)) else out

/-- `MsmsOutput.get_ses_per_sphere`: `self.areas["ses_0"]`.  When `areas`
is `None` this subscripts `None`, which is Python's generic
`TypeError: NoneType object is not subscriptable`. -/
def MsmsOutput.get_ses_per_sphere (o : MsmsOutput) : Except PyError (List ℚ) :=
  match o.areas with
  | none => Except.error PyError.typeError
  | some a => Except.ok (a.map (fun r => r.ses_0))

/-- `MsmsOutput.get_sas_per_sphere`: `self.areas["sas_0"]`, same failure
mode as `get_ses_per_sphere` when `areas` is `None`. -/
def MsmsOutput.get_sas_per_sphere (o : MsmsOutput) : Except PyError (List ℚ) :=
  match o.areas with
  | none => Except.error PyError.typeError
  | some a => Except.ok (a.map (fun r => r.sas_0))

/-- The shape `numpy.asarray` assigns to a nested list: a two-dimensional
`(rows, cols)` shape when the list is non-empty and rectangular, `none`
for the one-dimensional shapes `(0,)` (empty) and ragged object arrays. -/
def npShape2 (xyz : List (List ℚ)) : Option (Nat × Nat) :=
  match xyz with
  | [] => none
  | row :: rest =>
    if rest.all (fun r => r.length = row.length) then some (xyz.length, row.length)
    else none

/-- The external invocation assembled by `run_msms` once validation
passed: the rows written to the `.xyzr` input file
(`np.hstack([xyz, radii[:, np.newaxis]])`) and whether `-af` was added.
The subprocess itself is the external collaborator and out of scope; an
`Except.ok MsmsCall` result means the external call is reached. -/
structure MsmsCall where
  xyzr : List (List ℚ)
  compute_area : Bool
deriving DecidableEq, Repr

/-- The body of `run_msms` after the `check_small_atoms` dispatch: the
two shape validations (in source order, with the source's `ValueError`
messages), then the external call with the hstacked rows. -/
def run_msms_noCheck (xyz : List (List ℚ)) (radii : List ℚ) (compute_area : Bool) :
    Except PyError MsmsCall :=
  match npShape2 xyz with
  | none => Except.error (PyError.valueError "xyz must have shape (N, 3)")
  | some (n, m) =>
    if m ≠ 3 then Except.error (PyError.valueError "xyz must have shape (N, 3)")
    else if radii.length ≠ n then
      Except.error (PyError.valueError
        ("radii must have shape (" ++ toString n ++ ",), not (" ++ toString radii.length ++ ",)"))
    else Except.ok ⟨List.zipWith (fun row r => row ++ [r]) xyz radii, compute_area⟩

/-- Squared Euclidean distance between two coordinate rows. -/
def sqdist (p q : List ℚ) : ℚ :=
  (((p.zip q).map (fun x => (x.1 - x.2) ^ 2))).sum

/-- `KDTree(xyz).query(xyz, k=2)`, second column of the index array: the
nearest atom other than `i` itself (by Euclidean — equivalently squared —
distance; ties resolved to the smallest index).  When there is no other
atom, scipy documents the missing-neighbor sentinel index `n`, the number
of points, i.e. `xyz.length`. -/
def nnOther (xyz : List (List ℚ)) (i : Nat) : Nat :=
  match (List.range xyz.length).filter (fun j => j ≠ i) with
  | [] => xyz.length
  | c :: cs =>
    cs.foldl
      (fun best j =>
        if sqdist (xyz.getD i []) (xyz.getD j []) < sqdist (xyz.getD i []) (xyz.getD best [])
        then j else best)
      c

/-- The per-atom comparison `radii > (nbr_radii - nbr_dist)` of
`_run_msms_check_small_atoms`, with `nbr_dist = √d2` eliminated: over the
reals, `ri > rj - √d2` iff `rj - ri < 0` or `(rj - ri)² < d2` (see
`keepAtom_iff_real`), which keeps the embedding executable on ℚ. -/
def keepAtom (d2 ri rj : ℚ) : Bool :=
  decide (rj - ri < 0) || decide ((rj - ri) ^ 2 < d2)

/-- The mask `good_atoms = radii > (radii[ind[:, 1]] - dist[:, 1])` of
`_run_msms_check_small_atoms`: KDTree construction needs a non-empty
2-D array; the fancy indexing `radii[ind[:, 1]]` raises `IndexError` when
a sentinel (or any out-of-range) neighbor index occurs; the final
vectorized comparison raises a broadcast error if `radii` and the
neighbor arrays disagree in length. -/
def good_atoms (xyz : List (List ℚ)) (radii : List ℚ) : Except PyError (List Bool) :=
  if (npShape2 xyz).isNone then Except.error PyError.kdtreeError
  else
    match
      mapExcept
        (fun i =>
          let j := nnOther xyz i
          match radii[j]? with
          | none => Except.error PyError.indexError
          | some rj => Except.ok (sqdist (xyz.getD i []) (xyz.getD j []), rj))
        (List.range xyz.length)
    with
    | Except.error e => Except.error e
    | Except.ok nbr =>
      if radii.length ≠ xyz.length then Except.error PyError.broadcastError
      else Except.ok (List.zipWith (fun ri p => keepAtom p.1 ri p.2) radii nbr)

/-- numpy boolean-mask indexing `xs[mask]`. -/
def boolFilter (mask : List Bool) (xs : List α) : List α :=
  (List.zip mask xs).filterMap (fun p => if p.1 then some p.2 else none)

/-- `_run_msms_check_small_atoms`: compute the keep mask, filter both
arrays with it, and call `run_msms` on the result (with
`check_small_atoms` no longer set). -/
def run_msms_check_small_atoms (xyz : List (List ℚ)) (radii : List ℚ)
    (compute_area : Bool) : Except PyError MsmsCall :=
  match good_atoms xyz radii with
  | Except.error e => Except.error e
  | Except.ok mask => run_msms_noCheck (boolFilter mask xyz) (boolFilter mask radii) compute_area

/-- `run_msms(xyz, radii, compute_area=False, check_small_atoms=False)`:
with `check_small_atoms` it delegates to the filter (which re-enters the
plain path); otherwise it validates shapes and reaches the external call. -/
def run_msms (xyz : List (List ℚ)) (radii : List ℚ) (compute_area : Bool := false)
    (check_small_atoms : Bool := false) : Except PyError MsmsCall :=
  if check_small_atoms then run_msms_check_small_atoms xyz radii compute_area
  else run_msms_noCheck xyz radii compute_area


/-- C7: for every surface result, `get_face_indices()` defaults to
zero-indexed and its zero-indexed entries are, elementwise, the
one-indexed entries minus 1. -/
theorem C7_face_indices_zero_indexed (o : MsmsOutput) :
    o.get_face_indices = o.get_face_indices true ∧
    o.get_face_indices true =
      (o.get_face_indices false).map (fun t => (t.1 - 1, t.2.1 - 1, t.2.2 - 1)) := by
  constructor
  · rfl
  · simp [MsmsOutput.get_face_indices]

/-- C3 (counterexample to the claim): a surface result built without area
data answers `get_ses_per_sphere` / `get_sas_per_sphere` with the generic
`TypeError` from subscripting `None` — no distinct `MissingAreasError`
condition exists in the code. -/
theorem C3_counterexample_generic_type_error :
    (MsmsOutput.mk ["log"] [] [] none).get_ses_per_sphere = Except.error PyError.typeError ∧
    (MsmsOutput.mk ["log"] [] [] none).get_sas_per_sphere = Except.error PyError.typeError :=
  ⟨rfl, rfl⟩

/-- C3 (amended): for every surface result without area data, both
per-sphere accessors fail with the generic null-subscript `TypeError`. -/
theorem C3_amended_none_subscript_type_error (o : MsmsOutput) (h : o.areas = none) :
    o.get_ses_per_sphere = Except.error PyError.typeError ∧
    o.get_sas_per_sphere = Except.error PyError.typeError := by
  simp [MsmsOutput.get_ses_per_sphere, MsmsOutput.get_sas_per_sphere, h]

/-- Witness for `C3_amended_none_subscript_type_error` at a concrete
result. -/
theorem C3_witness :
    (MsmsOutput.mk [] [] [⟨1, 2, 3, 4, 5⟩] none).get_ses_per_sphere =
      Except.error PyError.typeError ∧
    (MsmsOutput.mk [] [] [⟨1, 2, 3, 4, 5⟩] none).get_sas_per_sphere =
      Except.error PyError.typeError :=
  C3_amended_none_subscript_type_error (MsmsOutput.mk [] [] [⟨1, 2, 3, 4, 5⟩] none) rfl

/-- C9: `run_msms` (on its default, non-filtering path) rejects an `xyz`
argument that is not a two-dimensional `(N, 3)` array, and a `radii`
argument whose length is not the matching `N`, with the source's
descriptive `ValueError`s; an error result means the external call
(`MsmsCall`) is never assembled. -/
theorem C9_shape_validation (xyz : List (List ℚ)) (radii : List ℚ) (ca : Bool) :
    (npShape2 xyz = none →
      run_msms xyz radii ca = Except.error (PyError.valueError "xyz must have shape (N, 3)")) ∧
    (∀ n m, npShape2 xyz = some (n, m) → m ≠ 3 →
      run_msms xyz radii ca = Except.error (PyError.valueError "xyz must have shape (N, 3)")) ∧
    (∀ n, npShape2 xyz = some (n, 3) → radii.length ≠ n →
      run_msms xyz radii ca =
        Except.error (PyError.valueError
          ("radii must have shape (" ++ toString n ++ ",), not ("
            ++ toString radii.length ++ ",)"))) := by
  refine ⟨fun h => ?_, fun n m h hm => ?_, fun n h hr => ?_⟩
  · simp [run_msms, run_msms_noCheck, h]
  · simp [run_msms, run_msms_noCheck, h, hm]
  · simp [run_msms, run_msms_noCheck, h, hr]

/-- Witness for `C9_shape_validation`: a 2×2 coordinate array and a
mismatched radii length are both rejected. -/
theorem C9_witness :
    run_msms [[0, 0], [1, 1]] [1, 1] false =
      Except.error (PyError.valueError "xyz must have shape (N, 3)") ∧
    run_msms [[0, 0, 0], [1, 1, 1]] [1] false =
      Except.error (PyError.valueError "radii must have shape (2,), not (1,)") := by
  constructor
  · exact (C9_shape_validation [[0, 0], [1, 1]] [1, 1] false).2.1 2 2 (by decide) (by decide)
  · exact (C9_shape_validation [[0, 0, 0], [1, 1, 1]] [1] false).2.2 2 (by decide) (by decide)

/-- C6 (counterexample to the claim): a single-atom input does raise an
index error — scipy's `query(k=2)` reports the missing second neighbor
with the sentinel index `n = 1`, and `radii[ind[:, 1]]` indexes the
length-1 radii array out of bounds. -/
theorem C6_counterexample_single_atom_index_error :
    run_msms [[0, 0, 0]] [1] false true = Except.error PyError.indexError := by decide

/-- C6 (amended): for every single-atom input, `run_msms` with
`check_small_atoms` fails with `IndexError` (sentinel neighbor index `1`
into the length-1 radii array) instead of reaching the external call. -/
theorem C6_amended_single_atom_index_error (p : List ℚ) (r : ℚ) :
    run_msms [p] [r] false true = Except.error PyError.indexError := by
  simp [run_msms, run_msms_check_small_atoms, good_atoms, npShape2, nnOther,
    mapExcept, List.range_succ, List.range_zero, List.filter_cons, List.filter_nil]

/-- Lines that do not start with `"PARAM"` are skipped by the params scan. -/
theorem paramsAux_append_skip (pre rest : List String)
    (h : ∀ l ∈ pre, pyStartsWith l "PARAM" = false) :
    paramsAux (pre ++ rest) = paramsAux rest := by
  induction pre with
  | nil => rfl
  | cons a as ih =>
    have ha : pyStartsWith a "PARAM" = false := h a (List.mem_cons_self a as)
    rw [List.cons_append]
    simp only [paramsAux, ha, Bool.false_eq_true, if_false]
    exact ih (fun l hl => h l (List.mem_cons_of_mem a hl))

/-- If no line starts with `"PARAM"`, the scan falls through and returns
`None` without raising. -/
theorem paramsAux_none (lines : List String)
    (h : ∀ l ∈ lines, pyStartsWith l "PARAM" = false) :
    paramsAux lines = Except.ok none := by
  have := paramsAux_append_skip lines [] h
  simpa using this

/-- C5 (counterexample to the claim): on the spec's example line the
second whitespace token is `"--"`, so token 2 is the word
`"probe_radius"` and `float()` raises `ValueError` — `params()` does not
return `SurfaceParams(1.5, 2.0, 3.0)` there. -/
theorem C5_counterexample_spec_example_line :
    paramsAux ["PARAM -- probe_radius 1.5 density 2.0 hdensity 3.0"] =
      Except.error (PyError.valueError "could not convert string to float: probe_radius") ∧
    paramsAux ["PARAM -- probe_radius 1.5 density 2.0 hdensity 3.0"] ≠
      Except.ok (some ⟨3/2, 2, 3⟩) := by
  constructor
  · decide
  · decide

/-- C5 (amended): `params()` converts tokens 2, 4, 6 of the first
`"PARAM"`-prefixed line (when those tokens exist and are numeric — on an
actual msms `PARAM` line, e.g. without the spec example's extra `"--"`
token, they are) and returns `None` without raising when no such line
exists; the spec's example line itself raises `ValueError`. -/
theorem C5_amended_params_tokens_2_4_6 :
    (∀ (pre : List String) (l : String) (post : List String),
      (∀ l2 ∈ pre, pyStartsWith l2 "PARAM" = false) →
      pyStartsWith l "PARAM" = true →
      ∀ (t2 t4 t6 : String) (p d h : ℚ),
      (pySplit l)[2]? = some t2 → pyFloat t2 = some p →
      (pySplit l)[4]? = some t4 → pyFloat t4 = some d →
      (pySplit l)[6]? = some t6 → pyFloat t6 = some h →
      paramsAux (pre ++ l :: post) = Except.ok (some ⟨p, d, h⟩)) ∧
    (∀ lines : List String, (∀ l ∈ lines, pyStartsWith l "PARAM" = false) →
      paramsAux lines = Except.ok none) ∧
    paramsAux ["PARAM Probe_radius 1.5 density 2.0 hdensity 3.0"] =
      Except.ok (some ⟨3/2, 2, 3⟩) := by
  refine ⟨?_, paramsAux_none, by decide⟩
  intro pre l post hpre hl t2 t4 t6 p d h h2 hp h4 hd h6 hh
  rw [paramsAux_append_skip pre (l :: post) hpre]
  simp only [paramsAux, hl, if_true, h2, h4, h6, pyFloatE, hp, hd, hh]

/-- Witness for `C5_amended_params_tokens_2_4_6`: a realistic msms PARAM
line after a noise line, and a log with no PARAM line. -/
theorem C5_witness :
    paramsAux ["MSMS 2.6.1", "PARAM Probe_radius 1.5 density 2.0 hdensity 3.0"] =
      Except.ok (some ⟨3/2, 2, 3⟩) ∧
    paramsAux ["MSMS 2.6.1"] = Except.ok none := by
  constructor
  · exact C5_amended_params_tokens_2_4_6.1 ["MSMS 2.6.1"]
      "PARAM Probe_radius 1.5 density 2.0 hdensity 3.0" [] (by decide) (by decide)
      "1.5" "2.0" "3.0" (3/2) 2 3 (by decide) (by decide) (by decide) (by decide)
      (by decide) (by decide)
  · exact C5_amended_params_tokens_2_4_6.2.1 ["MSMS 2.6.1"] (by decide)

/-- A line whose stripped text starts with `"Total ses_volume:"` cannot
itself start with `"ANALYTICAL SURFACE AREA :"`: stripping keeps the
first character when it is not whitespace. -/
theorem vol_strip_not_area (v : String)
    (h : pyStartsWith (pyStrip v) "Total ses_volume:" = true) :
    pyStartsWith v "ANALYTICAL SURFACE AREA :" = false := by
  by_contra hA
  rw [Bool.not_eq_false] at hA
  have hpreT : "Total ses_volume:".data <+: pyStripChars v.data := by
    have := List.isPrefixOf_iff_prefix.mp h
    simpa [pyStrip, pyStartsWith] using this
  have hpreA : "ANALYTICAL SURFACE AREA :".data <+: v.data :=
    List.isPrefixOf_iff_prefix.mp hA
  obtain ⟨tA, htA⟩ := hpreA
  obtain ⟨tT, htT⟩ := hpreT
  have hvdata : v.data = 'A' :: ("NALYTICAL SURFACE AREA :".data ++ tA) := by
    rw [← htA]; rfl
  have hdrop : v.data.dropWhile isPySpace = v.data := by
    rw [hvdata, List.dropWhile_cons]
    simp [isPySpace]
  have hsuffix : pyStripChars v.data <+: v.data := by
    unfold pyStripChars
    rw [hdrop]
    have hsf : v.data.reverse.dropWhile isPySpace <:+ v.data.reverse :=
      List.dropWhile_suffix _
    simpa using hsf.reverse
  have hstripT : pyStripChars v.data = 'T' :: ("otal ses_volume:".data ++ tT) := by
    rw [← htT]; rfl
  rw [hstripT, hvdata, List.cons_prefix_cons] at hsuffix
  exact absurd hsuffix.1 (by decide)


/-- One-step unfolding of `extractScan` on a cons cell, keeping the tail
abstract (the equation compiler's own equations specialise the tail). -/
theorem extractScan_cons (line : String) (rest : List String) (s : Option (ℚ × ℚ))
    (v : Option ℚ) :
    extractScan (line :: rest) s v =
      (if pyStartsWith line "ANALYTICAL SURFACE AREA :" then
        match rest with
        | [] => Except.error PyError.stopIteration
        | [_] => Except.error PyError.stopIteration
        | _ :: dataLine :: rest2 =>
          match (pySplit dataLine)[5]? with
          | none => Except.error PyError.indexError
          | some t5 =>
            match pyFloatE t5 with
            | Except.error e => Except.error e
            | Except.ok ses =>
              match (pySplit dataLine)[6]? with
              | none => Except.error PyError.indexError
              | some t6 =>
                match pyFloatE t6 with
                | Except.error e => Except.error e
                | Except.ok sas => extractScan rest2 (some (ses, sas)) v
      else if pyStartsWith (pyStrip line) "Total ses_volume:" then
        match (pySplit line)[2]? with
        | none => Except.error PyError.indexError
        | some t2 =>
          match pyFloatE t2 with
          | Except.error e => Except.error e
          | Except.ok v2 => extractScan rest s (some v2)
      else extractScan rest s v) := by
  match rest with
  | [] => rfl
  | [_] => rfl
  | _ :: _ :: _ => rfl

/-- If the scan finishes a list of lines without raising, continuing it
over appended lines resumes from the accumulated state: the whole-log
scan is the composition of its pieces. -/
theorem extractScan_append (l2 : List String) :
    ∀ (n : Nat) (l1 : List String), l1.length ≤ n →
    ∀ (s : Option (ℚ × ℚ)) (v : Option ℚ) (r : Option (ℚ × ℚ) × Option ℚ),
    extractScan l1 s v = Except.ok r →
    extractScan (l1 ++ l2) s v = extractScan l2 r.1 r.2 := by
  intro n
  induction n with
  | zero =>
    intro l1 hlen s v r h
    match l1 with
    | [] =>
      obtain rfl : (s, v) = r := by simpa [extractScan] using h
      rfl
    | _ :: _ => simp at hlen
  | succ n ih =>
    intro l1 hlen s v r h
    match l1 with
    | [] =>
      obtain rfl : (s, v) = r := by simpa [extractScan] using h
      rfl
    | line :: rest =>
      rw [extractScan_cons] at h
      rw [List.cons_append, extractScan_cons]
      by_cases hc : pyStartsWith line "ANALYTICAL SURFACE AREA :"
      · simp only [hc, if_true] at h ⊢
        match rest with
        | [] => simp at h
        | [x] => simp at h
        | x :: dataLine :: rest2 =>
          simp only [List.cons_append] at h ⊢
          try simp only [] at h ⊢
          cases h5 : (pySplit dataLine)[5]? with
          | none => simp [h5] at h
          | some t5 =>
            try rw [h5] at h
            try rw [h5]
            try simp only [] at h ⊢
            cases hf5 : pyFloatE t5 with
            | error e => simp [hf5] at h
            | ok ses =>
              try rw [hf5] at h
              try rw [hf5]
              try simp only [] at h ⊢
              cases h6 : (pySplit dataLine)[6]? with
              | none => simp [h6] at h
              | some t6 =>
                try rw [h6] at h
                try rw [h6]
                try simp only [] at h ⊢
                cases hf6 : pyFloatE t6 with
                | error e => simp [hf6] at h
                | ok sas =>
                  try rw [hf6] at h
                  try rw [hf6]
                  try simp only [] at h ⊢
                  exact ih rest2 (by simp at hlen; omega) _ _ r h
      · simp only [hc, Bool.false_eq_true, if_false] at h ⊢
        by_cases hv : pyStartsWith (pyStrip line) "Total ses_volume:"
        · simp only [hv, if_true] at h ⊢
          cases h2 : (pySplit line)[2]? with
          | none => simp [h2] at h
          | some t2 =>
            try rw [h2] at h
            try rw [h2]
            try simp only [] at h ⊢
            cases hf2 : pyFloatE t2 with
            | error e => simp [hf2] at h
            | ok vv =>
              try rw [hf2] at h
              try rw [hf2]
              try simp only [] at h ⊢
              exact ih rest (by simp at hlen; omega) _ _ r h
        · simp only [hv, Bool.false_eq_true, if_false] at h ⊢
          exact ih rest (by simp at hlen; omega) _ _ r h

/-- Invariants of a completed scan: (1) without any area-marker line the
ses/sas accumulator is returned unchanged; (2) without any volume-marker
line the volume accumulator is returned unchanged; (3) the ses/sas
accumulator only ever moves from its input value to a set value; (4) a
present area-marker line guarantees a set ses/sas accumulator. -/
theorem extractScan_ok_inv :
    ∀ (n : Nat) (l : List String), l.length ≤ n →
    ∀ (s : Option (ℚ × ℚ)) (v : Option ℚ) (r : Option (ℚ × ℚ) × Option ℚ),
    extractScan l s v = Except.ok r →
      ((∀ x ∈ l, pyStartsWith x "ANALYTICAL SURFACE AREA :" = false) → r.1 = s) ∧
      ((∀ x ∈ l, pyStartsWith (pyStrip x) "Total ses_volume:" = false) → r.2 = v) ∧
      (r.1 = s ∨ r.1.isSome = true) ∧
      ((∃ x ∈ l, pyStartsWith x "ANALYTICAL SURFACE AREA :" = true) → r.1.isSome = true) := by
  intro n
  induction n with
  | zero =>
    intro l hlen s v r h
    match l with
    | [] =>
      obtain rfl : (s, v) = r := by simpa [extractScan] using h
      exact ⟨fun _ => rfl, fun _ => rfl, Or.inl rfl, by simp⟩
    | _ :: _ => simp at hlen
  | succ n ih =>
    intro l hlen s v r h
    match l with
    | [] =>
      obtain rfl : (s, v) = r := by simpa [extractScan] using h
      exact ⟨fun _ => rfl, fun _ => rfl, Or.inl rfl, by simp⟩
    | line :: rest =>
      rw [extractScan_cons] at h
      by_cases hc : pyStartsWith line "ANALYTICAL SURFACE AREA :"
      · simp only [hc, if_true] at h
        match rest with
        | [] => simp at h
        | [x] => simp at h
        | x :: dataLine :: rest2 =>
          try simp only [] at h
          cases h5 : (pySplit dataLine)[5]? with
          | none => simp [h5] at h
          | some t5 =>
            try rw [h5] at h
            try simp only [] at h
            cases hf5 : pyFloatE t5 with
            | error e => simp [hf5] at h
            | ok ses =>
              try rw [hf5] at h
              try simp only [] at h
              cases h6 : (pySplit dataLine)[6]? with
              | none => simp [h6] at h
              | some t6 =>
                try rw [h6] at h
                try simp only [] at h
                cases hf6 : pyFloatE t6 with
                | error e => simp [hf6] at h
                | ok sas =>
                  try rw [hf6] at h
                  try simp only [] at h
                  obtain ⟨ih1, ih2, ih3, ih4⟩ := ih rest2 (by simp at hlen; omega) _ _ r h
                  refine ⟨?_, ?_, ?_, ?_⟩
                  · intro hall
                    exact absurd hc (by simp [hall line (by simp)])
                  · intro hall
                    exact ih2 (fun y hy => hall y (by simp [hy]))
                  · rcases ih3 with h3 | h3
                    · exact Or.inr (by rw [h3]; rfl)
                    · exact Or.inr h3
                  · intro _
                    rcases ih3 with h3 | h3
                    · rw [h3]; rfl
                    · exact h3
      · simp only [hc, Bool.false_eq_true, if_false] at h
        by_cases hv : pyStartsWith (pyStrip line) "Total ses_volume:"
        · simp only [hv, if_true] at h
          cases h2 : (pySplit line)[2]? with
          | none => simp [h2] at h
          | some t2 =>
            try rw [h2] at h
            try simp only [] at h
            cases hf2 : pyFloatE t2 with
            | error e => simp [hf2] at h
            | ok vv =>
              try rw [hf2] at h
              try simp only [] at h
              obtain ⟨ih1, ih2, ih3, ih4⟩ := ih rest (by simp at hlen; omega) _ _ r h
              refine ⟨?_, ?_, ?_, ?_⟩
              · intro hall
                exact ih1 (fun y hy => hall y (by simp [hy]))
              · intro hall
                exact absurd hv (by simp [hall line (by simp)])
              · exact ih3
              · rintro ⟨y, hy, hys⟩
                rcases List.mem_cons.mp hy with rfl | hy2
                · exact absurd hys (by simp [hc])
                · exact ih4 ⟨y, hy2, hys⟩
        · simp only [hv, Bool.false_eq_true, if_false] at h
          obtain ⟨ih1, ih2, ih3, ih4⟩ := ih rest (by simp at hlen; omega) _ _ r h
          refine ⟨?_, ?_, ih3, ?_⟩
          · intro hall
            exact ih1 (fun y hy => hall y (by simp [hy]))
          · intro hall
            exact ih2 (fun y hy => hall y (by simp [hy]))
          · rintro ⟨y, hy, hys⟩
            rcases List.mem_cons.mp hy with rfl | hy2
            · exact absurd hys (by simp [hc])
            · exact ih4 ⟨y, hy2, hys⟩

/-- The scan of an exhausted log returns the accumulators. -/
theorem extractScan_nil (s : Option (ℚ × ℚ)) (v : Option ℚ) :
    extractScan [] s v = Except.ok (s, v) := rfl

/-- C4: when the scan completes, a log with no
`"ANALYTICAL SURFACE AREA :"` line — whatever other lines, including
`"Total ses_volume:"` lines, are present — fails with the missing-area
`ValueError`, and a log with such a line but no `"Total ses_volume:"`
line fails with the missing-volume `ValueError`. -/
theorem C4_missing_marker_errors (lines : List String)
    (r : Option (ℚ × ℚ) × Option ℚ)
    (hscan : extractScan lines none none = Except.ok r) :
    ((∀ l ∈ lines, pyStartsWith l "ANALYTICAL SURFACE AREA :" = false) →
      extract_ses_sas_vol lines = Except.error (PyError.valueError
        "Could not find analytical surface area in the msms output.")) ∧
    ((∃ l ∈ lines, pyStartsWith l "ANALYTICAL SURFACE AREA :" = true) →
     (∀ l ∈ lines, pyStartsWith (pyStrip l) "Total ses_volume:" = false) →
      extract_ses_sas_vol lines = Except.error (PyError.valueError
        "Could not find numerical SES volume in the msms output.")) := by
  obtain ⟨i1, i2, i3, i4⟩ :=
    extractScan_ok_inv lines.length lines le_rfl none none r hscan
  constructor
  · intro hall
    have h1 : r.1 = none := i1 hall
    unfold extract_ses_sas_vol
    rw [hscan]
    obtain ⟨r1, r2⟩ := r
    simp only at h1
    subst h1
    rfl
  · intro hex hall
    have h2 : r.2 = none := i2 hall
    have h4 : r.1.isSome = true := i4 hex
    unfold extract_ses_sas_vol
    rw [hscan]
    obtain ⟨r1, r2⟩ := r
    simp only at h2 h4
    subst h2
    obtain ⟨p, hp⟩ := Option.isSome_iff_exists.mp h4
    subst hp
    obtain ⟨ps, pv⟩ := p
    rfl

/-- Witness for `C4_missing_marker_errors`: a log with a volume line but
no area block, and a log with a complete area block but no volume line. -/
theorem C4_witness :
    extract_ses_sas_vol ["MSMS 2.6.1", "  Total ses_volume: 7.5"] =
      Except.error (PyError.valueError
        "Could not find analytical surface area in the msms output.") ∧
    extract_ses_sas_vol ["ANALYTICAL SURFACE AREA :", "hdr", "a b c d e 1.5 2.5"] =
      Except.error (PyError.valueError
        "Could not find numerical SES volume in the msms output.") := by
  constructor
  · exact (C4_missing_marker_errors _ (none, some (15/2)) (by decide)).1 (by decide)
  · exact (C4_missing_marker_errors _ (some (3/2, 5/2), none) (by decide)).2
      ⟨"ANALYTICAL SURFACE AREA :", by simp, by decide⟩ (by decide)

/-- C10: a log whose scan is fine until a truncated area block at the
very end — the marker as the last line, or as the second-to-last line
with only the header line after it — makes `extract_ses_sas_vol` fail
with the uncaught `StopIteration` from `next()`, not with the
missing-data `ValueError`s. -/
theorem C10_truncated_area_block_stop_iteration
    (pre : List String) (r : Option (ℚ × ℚ) × Option ℚ)
    (hpre : extractScan pre none none = Except.ok r)
    (m : String) (hm : pyStartsWith m "ANALYTICAL SURFACE AREA :" = true)
    (t : List String) (ht : t = [m] ∨ ∃ x, t = [m, x]) :
    extract_ses_sas_vol (pre ++ t) = Except.error PyError.stopIteration := by
  have happ := extractScan_append t pre.length pre le_rfl none none r hpre
  have ht2 : extractScan t r.1 r.2 = Except.error PyError.stopIteration := by
    rcases ht with rfl | ⟨x, rfl⟩
    · rw [extractScan_cons]; simp [hm]
    · rw [extractScan_cons]; simp [hm]
  unfold extract_ses_sas_vol
  rw [happ, ht2]

/-- Witness for `C10_truncated_area_block_stop_iteration`: a volume line
followed by a bare area marker as the final line. -/
theorem C10_witness :
    extract_ses_sas_vol ["  Total ses_volume: 7.5", "ANALYTICAL SURFACE AREA :"] =
      Except.error PyError.stopIteration :=
  C10_truncated_area_block_stop_iteration ["  Total ses_volume: 7.5"]
    (none, some (15/2)) (by decide) "ANALYTICAL SURFACE AREA :" (by decide)
    ["ANALYTICAL SURFACE AREA :"] (Or.inl rfl)

/-- C1 (counterexample to the claim): in a log with two complete area
blocks and two volume lines, the ses/sas values of the LAST block are
returned — the loop does not return on the first block, so ses is 3.5
(from the second block), not 1.5 (from the first). -/
theorem C1_counterexample_first_block_loses :
    extract_ses_sas_vol
      ["ANALYTICAL SURFACE AREA :", "hdr", "a b c d e 1.5 2.5",
       "  Total ses_volume: 6.5",
       "ANALYTICAL SURFACE AREA :", "hdr", "a b c d e 3.5 4.5",
       "  Total ses_volume: 7.5"] = Except.ok ⟨7/2, 9/2, 15/2⟩ ∧
    (7 : ℚ)/2 ≠ 3/2 ∧ (9 : ℚ)/2 ≠ 5/2 :=
  ⟨by decide, by decide, by decide⟩

/-- C1 (amended): in every log, the LAST occurrence wins for BOTH
quantities and both scans run over the complete log.  Part 1: whatever
came before (any prefix whose scan completes), a well-formed area block
followed by any completing remainder containing no further area-marker
line — i.e. the log's last block — supplies the returned ses/sas.
Part 2: symmetrically, a volume line followed by any completing
remainder containing no further volume-marker line — the log's last
volume line — supplies the returned volume.  In particular the loop
does not return on the first block. -/
theorem C1_amended_last_occurrence_wins :
    (∀ (pre post : List String) (m hdr d : String) (s0 : Option (ℚ × ℚ)) (v0 : Option ℚ)
       (t5 t6 : String) (ses sas : ℚ) (r : Option (ℚ × ℚ) × Option ℚ) (vol : ℚ),
       extractScan pre none none = Except.ok (s0, v0) →
       pyStartsWith m "ANALYTICAL SURFACE AREA :" = true →
       (pySplit d)[5]? = some t5 → pyFloat t5 = some ses →
       (pySplit d)[6]? = some t6 → pyFloat t6 = some sas →
       (∀ x ∈ post, pyStartsWith x "ANALYTICAL SURFACE AREA :" = false) →
       extractScan post (some (ses, sas)) v0 = Except.ok r →
       r.2 = some vol →
       extract_ses_sas_vol (pre ++ m :: hdr :: d :: post) = Except.ok ⟨ses, sas, vol⟩) ∧
    (∀ (pre post : List String) (vline : String) (s0 : Option (ℚ × ℚ)) (v0 : Option ℚ)
       (tv : String) (vol ses sas : ℚ) (r : Option (ℚ × ℚ) × Option ℚ),
       extractScan pre none none = Except.ok (s0, v0) →
       pyStartsWith (pyStrip vline) "Total ses_volume:" = true →
       (pySplit vline)[2]? = some tv → pyFloat tv = some vol →
       (∀ x ∈ post, pyStartsWith (pyStrip x) "Total ses_volume:" = false) →
       extractScan post s0 (some vol) = Except.ok r →
       r.1 = some (ses, sas) →
       extract_ses_sas_vol (pre ++ vline :: post) = Except.ok ⟨ses, sas, vol⟩) := by
  constructor
  · intro pre post m hdr d s0 v0 t5 t6 ses sas r vol hpre hm h5 hf5 h6 hf6 hnoarea hpost hvol
    have h1 : extractScan (pre ++ m :: hdr :: d :: post) none none = Except.ok r := by
      rw [extractScan_append (m :: hdr :: d :: post) pre.length pre le_rfl none none
        (s0, v0) hpre]
      simp only [extractScan_cons, hm, if_true, h5, h6, pyFloatE, hf5, hf6]
      exact hpost
    have hr1 : r.1 = some (ses, sas) :=
      (extractScan_ok_inv post.length post le_rfl (some (ses, sas)) v0 r hpost).1 hnoarea
    unfold extract_ses_sas_vol
    rw [h1]
    obtain ⟨r1, r2⟩ := r
    simp only at hr1 hvol
    subst hr1
    subst hvol
    rfl
  · intro pre post vline s0 v0 tv vol ses sas r hpre hv hv2 hfv hnovol hpost hr1
    have hnva : pyStartsWith vline "ANALYTICAL SURFACE AREA :" = false :=
      vol_strip_not_area vline hv
    have h1 : extractScan (pre ++ vline :: post) none none = Except.ok r := by
      rw [extractScan_append (vline :: post) pre.length pre le_rfl none none (s0, v0) hpre]
      simp only [extractScan_cons, hnva, Bool.false_eq_true, if_false, hv, if_true, hv2,
        pyFloatE, hfv]
      exact hpost
    have hr2 : r.2 = some vol :=
      (extractScan_ok_inv post.length post le_rfl s0 (some vol) r hpost).2.1 hnovol
    unfold extract_ses_sas_vol
    rw [h1]
    obtain ⟨r1, r2⟩ := r
    simp only at hr1 hr2
    subst hr1
    subst hr2
    rfl

/-- Witness for `C1_amended_last_occurrence_wins`: part 1 at the
two-block/two-volume log (the last block supplies ses/sas), part 2 at a
log whose single volume line precedes the area block (the volume scan
does not stop there). -/
theorem C1_witness :
    extract_ses_sas_vol
      ["ANALYTICAL SURFACE AREA :", "hdr", "a b c d e 1.5 2.5",
       "  Total ses_volume: 6.5",
       "ANALYTICAL SURFACE AREA :", "hdr", "a b c d e 3.5 4.5",
       "  Total ses_volume: 7.5"] = Except.ok ⟨7/2, 9/2, 15/2⟩ ∧
    extract_ses_sas_vol
      ["  Total ses_volume: 6.5",
       "ANALYTICAL SURFACE AREA :", "hdr", "a b c d e 1.5 2.5"] =
      Except.ok ⟨3/2, 5/2, 13/2⟩ := by
  constructor
  · exact C1_amended_last_occurrence_wins.1
      ["ANALYTICAL SURFACE AREA :", "hdr", "a b c d e 1.5 2.5", "  Total ses_volume: 6.5"]
      ["  Total ses_volume: 7.5"]
      "ANALYTICAL SURFACE AREA :" "hdr" "a b c d e 3.5 4.5"
      (some (3/2, 5/2)) (some (13/2)) "3.5" "4.5" (7/2) (9/2)
      (some (7/2, 9/2), some (15/2)) (15/2)
      (by decide) (by decide) (by decide) (by decide) (by decide) (by decide)
      (by decide) (by decide) rfl
  · exact C1_amended_last_occurrence_wins.2
      [] ["ANALYTICAL SURFACE AREA :", "hdr", "a b c d e 1.5 2.5"]
      "  Total ses_volume: 6.5" none none "6.5" (13/2) (3/2) (5/2)
      (some (3/2, 5/2), some (13/2))
      rfl (by decide) (by decide) (by decide) (by decide) (by decide) rfl

/-- A sum of squared coordinate differences is nonnegative. -/
theorem sqdist_nonneg (p q : List ℚ) : 0 ≤ sqdist p q := by
  unfold sqdist
  apply List.sum_nonneg
  intro x hx
  simp only [List.mem_map] at hx
  obtain ⟨y, _, rfl⟩ := hx
  positivity

/-- The sqrt-free keep test agrees with the source's real-valued
comparison `radius > neighbor_radius - distance`, where the distance is
the (real) square root of the squared distance. -/
theorem keepAtom_iff_real (d2 ri rj : ℚ) :
    keepAtom d2 ri rj = true ↔
      ((ri : ℝ) > (rj : ℝ) - Real.sqrt ((d2 : ℝ))) := by
  unfold keepAtom
  rw [Bool.or_eq_true, decide_eq_true_iff, decide_eq_true_iff]
  constructor
  · rintro (h | h)
    · have hs : (0 : ℝ) ≤ Real.sqrt (d2 : ℝ) := Real.sqrt_nonneg _
      have h' : ((rj : ℝ)) - ri < 0 := by exact_mod_cast h
      linarith
    · have h' : ((rj : ℝ) - ri) ^ 2 < (d2 : ℝ) := by exact_mod_cast h
      by_cases hsgn : (0 : ℝ) ≤ (rj : ℝ) - ri
      · have hlt : (rj : ℝ) - ri < Real.sqrt (d2 : ℝ) :=
          (Real.lt_sqrt hsgn).mpr h'
        linarith
      · have hs : (0 : ℝ) ≤ Real.sqrt (d2 : ℝ) := Real.sqrt_nonneg _
        linarith
  · intro h
    by_cases hsgn : rj - ri < 0
    · exact Or.inl hsgn
    · right
      push_neg at hsgn
      have hsgn' : (0 : ℝ) ≤ (rj : ℝ) - ri := by
        have : ((0 : ℚ) : ℝ) ≤ ((rj - ri : ℚ) : ℝ) := by exact_mod_cast hsgn
        push_cast at this
        linarith
      have h1 : (rj : ℝ) - ri < Real.sqrt (d2 : ℝ) := by linarith
      have h2 : ((rj : ℝ) - ri) ^ 2 < (d2 : ℝ) := (Real.lt_sqrt hsgn').mp h1
      exact_mod_cast h2

/-- A fold that repeatedly chooses between the accumulator and the next
element stays inside the candidate list. -/
theorem foldl_choice_mem (g : Nat → ℚ) (c : Nat) (cs : List Nat) :
    cs.foldl (fun best j => if g j < g best then j else best) c ∈ c :: cs := by
  induction cs generalizing c with
  | nil => simp
  | cons d ds ih =>
    simp only [List.foldl_cons]
    have h := ih (if g d < g c then d else c)
    rcases List.mem_cons.mp h with h1 | h1
    · by_cases hc : g d < g c
      · simp only [hc, if_true] at h1 ⊢
        simp [h1]
      · simp only [hc, if_false] at h1 ⊢
        simp [h1]
    · simp [List.mem_cons, h1]

/-- With at least two atoms, the chosen nearest neighbor of atom `i` is a
genuine other atom: an index below `N` and different from `i`. -/
theorem nnOther_lt_ne (xyz : List (List ℚ)) (i : Nat) (h2 : 2 ≤ xyz.length) :
    nnOther xyz i < xyz.length ∧ nnOther xyz i ≠ i := by
  unfold nnOther
  cases hf : (List.range xyz.length).filter (fun j => j ≠ i) with
  | nil =>
    exfalso
    have h0 : (0 : Nat) ∈ List.range xyz.length := List.mem_range.mpr (by omega)
    have h1 : (1 : Nat) ∈ List.range xyz.length := List.mem_range.mpr (by omega)
    rw [List.filter_eq_nil_iff] at hf
    have e0 := hf 0 h0
    have e1 := hf 1 h1
    simp at e0 e1
    omega
  | cons c cs =>
    have hmem :
        cs.foldl
          (fun best j =>
            if sqdist (xyz.getD i []) (xyz.getD j []) < sqdist (xyz.getD i []) (xyz.getD best [])
            then j else best) c ∈ c :: cs :=
      foldl_choice_mem (fun j => sqdist (xyz.getD i []) (xyz.getD j [])) c cs
    rw [← hf] at hmem
    have := List.mem_filter.mp hmem
    refine ⟨List.mem_range.mp this.1, by simpa using this.2⟩

/-- A `mapExcept` over elements that all succeed is the `map` of the
per-element results. -/
theorem mapExcept_ok_of_all {α β : Type} (g : α → Except PyError β) (f : α → β)
    (l : List α) (h : ∀ a ∈ l, g a = Except.ok (f a)) :
    mapExcept g l = Except.ok (l.map f) := by
  induction l with
  | nil => rfl
  | cons a as ih =>
    have ha := h a (by simp)
    have hrest := ih (fun b hb => h b (by simp [hb]))
    simp [mapExcept, ha, hrest]

/-- `npShape2` reports the length of the list as the row count. -/
theorem npShape2_fst (xyz : List (List ℚ)) (N m : Nat)
    (hshape : npShape2 xyz = some (N, m)) : xyz.length = N := by
  cases xyz with
  | nil => simp [npShape2] at hshape
  | cons row rest =>
    simp only [npShape2] at hshape
    split at hshape
    · simp only [Option.some.injEq, Prod.mk.injEq] at hshape
      exact hshape.1
    · simp at hshape

/-- On a rectangular `N`-atom input with parallel radii and `N ≥ 2`,
the small-atom mask is computed atom by atom from the nearest-neighbor
data, with no exception raised. -/
theorem good_atoms_ok (xyz : List (List ℚ)) (radii : List ℚ) (N m : Nat)
    (hshape : npShape2 xyz = some (N, m)) (hlen : radii.length = N) (h2 : 2 ≤ N) :
    good_atoms xyz radii =
      Except.ok ((List.range N).map (fun i =>
        keepAtom (sqdist (xyz.getD i []) (xyz.getD (nnOther xyz i) []))
          (radii.getD i 0) (radii.getD (nnOther xyz i) 0))) := by
  have hxyz : xyz.length = N := npShape2_fst xyz N m hshape
  have hmap :
      mapExcept
        (fun i =>
          let j := nnOther xyz i
          match radii[j]? with
          | none => Except.error PyError.indexError
          | some rj => Except.ok (sqdist (xyz.getD i []) (xyz.getD j []), rj))
        (List.range xyz.length) =
      Except.ok ((List.range xyz.length).map (fun i =>
        (sqdist (xyz.getD i []) (xyz.getD (nnOther xyz i) []),
          radii.getD (nnOther xyz i) 0))) := by
    apply mapExcept_ok_of_all
    intro i hi
    have hj : nnOther xyz i < xyz.length := (nnOther_lt_ne xyz i (by omega)).1
    have hjr : nnOther xyz i < radii.length := by omega
    have hsome : radii[nnOther xyz i]? = some (radii.getD (nnOther xyz i) 0) := by
      rw [List.getElem?_eq_getElem hjr]
      rw [List.getD_eq_getElem?_getD, List.getElem?_eq_getElem hjr]
      rfl
    simp only [hsome]
  unfold good_atoms
  rw [hshape]
  simp only [Option.isNone_some, Bool.false_eq_true, if_false]
  rw [hmap]
  simp only [hlen, hxyz, ne_eq, not_true_eq_false, if_false]
  congr 1
  apply List.ext_getElem?
  intro k
  by_cases hk : k < N
  · have hkr : k < radii.length := by omega
    rw [List.getElem?_zipWith', List.getElem?_eq_getElem hkr,
      List.getElem?_map, List.getElem?_map, List.getElem?_range hk]
    simp [List.getD_eq_getElem?_getD, List.getElem?_eq_getElem hkr]
  · have hk1 : radii.length ≤ k := by omega
    have hNk : N ≤ k := by omega
    rw [List.getElem?_zipWith', List.getElem?_eq_none hk1]
    simp [List.getElem?_eq_none, hNk]

/-- C2: on any rectangular `N ≥ 2` input with parallel radii the
small-atom filter raises nothing and keeps atom `i` iff its radius
strictly exceeds the nearest-neighbor radius minus the Euclidean distance
to that neighbor; in particular for two atoms 0.5 apart with radii
`[1, 2]` the mask is `[false, true]` (first discarded, second kept) and
with radii `[1, 1]` it is `[true, true]` (both kept). -/
theorem C2_small_atom_filter_keep_iff (xyz : List (List ℚ)) (radii : List ℚ) (N m : Nat)
    (hshape : npShape2 xyz = some (N, m)) (hlen : radii.length = N) (h2 : 2 ≤ N) :
    (∃ mask : List Bool, good_atoms xyz radii = Except.ok mask ∧ mask.length = N ∧
      ∀ i, i < N →
        (mask.getD i false = true ↔
          ((radii.getD i 0 : ℝ) >
            (radii.getD (nnOther xyz i) 0 : ℝ) -
              Real.sqrt ((sqdist (xyz.getD i []) (xyz.getD (nnOther xyz i) []) : ℚ) : ℝ)))) ∧
    good_atoms [[0, 0, 0], [1/2, 0, 0]] [1, 2] = Except.ok [false, true] ∧
    good_atoms [[0, 0, 0], [1/2, 0, 0]] [1, 1] = Except.ok [true, true] := by
  refine ⟨?_, by decide, by decide⟩
  refine ⟨_, good_atoms_ok xyz radii N m hshape hlen h2, by simp, ?_⟩
  intro i hi
  have hgd : ((List.range N).map (fun i =>
      keepAtom (sqdist (xyz.getD i []) (xyz.getD (nnOther xyz i) []))
        (radii.getD i 0) (radii.getD (nnOther xyz i) 0))).getD i false =
      keepAtom (sqdist (xyz.getD i []) (xyz.getD (nnOther xyz i) []))
        (radii.getD i 0) (radii.getD (nnOther xyz i) 0) := by
    rw [List.getD_eq_getElem?_getD, List.getElem?_map, List.getElem?_range hi]
    rfl
  rw [hgd]
  exact keepAtom_iff_real _ _ _

/-- Witness for `C2_small_atom_filter_keep_iff` at the two-atom
configuration of the spec example. -/
theorem C2_witness :
    (∃ mask : List Bool, good_atoms [[0, 0, 0], [1/2, 0, 0]] [1, 2] = Except.ok mask ∧
      mask.length = 2 ∧
      ∀ i, i < 2 →
        (mask.getD i false = true ↔
          ((([1, 2] : List ℚ).getD i 0 : ℝ) >
            (([1, 2] : List ℚ).getD (nnOther [[0, 0, 0], [1/2, 0, 0]] i) 0 : ℝ) -
              Real.sqrt ((sqdist (([[0, 0, 0], [1/2, 0, 0]] : List (List ℚ)).getD i [])
                (([[0, 0, 0], [1/2, 0, 0]] : List (List ℚ)).getD
                  (nnOther [[0, 0, 0], [1/2, 0, 0]] i) []) : ℚ) : ℝ)))) ∧
    good_atoms [[0, 0, 0], [1/2, 0, 0]] [1, 2] = Except.ok [false, true] ∧
    good_atoms [[0, 0, 0], [1/2, 0, 0]] [1, 1] = Except.ok [true, true] :=
  C2_small_atom_filter_keep_iff [[0, 0, 0], [1/2, 0, 0]] [1, 2] 2 3
    (by decide) (by decide) (by decide)

/-- A successful `mapExcept` yields exactly one output per input, in
input order. -/
theorem mapExcept_ok_spec {α β : Type} (g : α → Except PyError β) :
    ∀ (l : List α) (bs : List β), mapExcept g l = Except.ok bs →
      bs.length = l.length ∧
      ∀ k : Nat, bs[k]? = (l[k]?).bind (fun a => (g a).toOption) := by
  intro l
  induction l with
  | nil =>
    intro bs h
    obtain rfl : ([] : List β) = bs := by simpa [mapExcept] using h
    exact ⟨rfl, fun k => by simp⟩
  | cons a as ih =>
    intro bs h
    cases hg : g a with
    | error e => simp [mapExcept, hg] at h
    | ok b =>
      cases hm : mapExcept g as with
      | error e => simp [mapExcept, hg, hm] at h
      | ok bs2 =>
        simp only [mapExcept, hg, hm] at h
        obtain rfl : b :: bs2 = bs := by simpa using h
        obtain ⟨ihl, ihg⟩ := ih bs2 hm
        refine ⟨by simp [ihl], fun k => ?_⟩
        cases k with
        | zero => simp [hg, Except.toOption]
        | succ k2 => simpa using ihg k2

/-- A successful `loadtxt` yields exactly one record per (non-blank,
post-header) data line, each the conversion of its line, in line order. -/
theorem loadtxt_ok_spec {α : Type} (parse : String → Option α) (k0 : Nat)
    (lines : List String) (rs : List α)
    (h : loadtxt parse k0 lines = Except.ok rs) :
    rs.length = ((lines.drop k0).filter (fun l => pyStrip l ≠ "")).length ∧
    ∀ k : Nat, rs[k]? =
      (((lines.drop k0).filter (fun l => pyStrip l ≠ ""))[k]?).bind parse := by
  unfold loadtxt at h
  obtain ⟨h1, h2⟩ := mapExcept_ok_spec _ _ _ h
  refine ⟨h1, fun k => ?_⟩
  rw [h2 k]
  cases hk : ((lines.drop k0).filter (fun l => pyStrip l ≠ ""))[k]? with
  | none => simp
  | some a =>
    cases hp : parse a with
    | none => simp [hp, Except.toOption]
    | some b => simp [hp, Except.toOption]

/-- C8: on well-formed streams (every data line converts) `from_files`
returns a result holding exactly one vertex/face/area record per data
line, in line order, after skipping the fixed 3-, 3- and 1-line headers;
header lines are never counted as records. -/
theorem C8_from_files_record_per_line
    (log vert face area : List String)
    (vs : List VertexRecord) (fs : List FaceRecord) (ars : List AreaRecord)
    (hv : loadtxt parseVertLine 3 vert = Except.ok vs)
    (hf : loadtxt parseFaceLine 3 face = Except.ok fs)
    (ha : loadtxt parseAreaLine 1 area = Except.ok ars) :
    MsmsOutput.from_files log vert face (some area) =
      Except.ok ⟨log, vs, fs, some ars⟩ ∧
    vs.length = ((vert.drop 3).filter (fun l => pyStrip l ≠ "")).length ∧
    fs.length = ((face.drop 3).filter (fun l => pyStrip l ≠ "")).length ∧
    ars.length = ((area.drop 1).filter (fun l => pyStrip l ≠ "")).length ∧
    (∀ k : Nat, vs[k]? =
      (((vert.drop 3).filter (fun l => pyStrip l ≠ ""))[k]?).bind parseVertLine) ∧
    (∀ k : Nat, fs[k]? =
      (((face.drop 3).filter (fun l => pyStrip l ≠ ""))[k]?).bind parseFaceLine) ∧
    (∀ k : Nat, ars[k]? =
      (((area.drop 1).filter (fun l => pyStrip l ≠ ""))[k]?).bind parseAreaLine) := by
  obtain ⟨v1, v2⟩ := loadtxt_ok_spec parseVertLine 3 vert vs hv
  obtain ⟨f1, f2⟩ := loadtxt_ok_spec parseFaceLine 3 face fs hf
  obtain ⟨a1, a2⟩ := loadtxt_ok_spec parseAreaLine 1 area ars ha
  refine ⟨?_, v1, f1, a1, v2, f2, a2⟩
  unfold MsmsOutput.from_files
  simp [hv, hf, ha]

/-- Witness for `C8_from_files_record_per_line` on one-data-line files. -/
theorem C8_witness :
    MsmsOutput.from_files ["log line"]
      ["h1", "h2", "h3", "0.5 0.5 0.5 1.0 0.0 0.0 1 1 2"]
      ["h1", "h2", "h3", "1 2 3 1 1"]
      (some ["h", "1 0.5 0.75"]) =
      Except.ok ⟨["log line"],
        [⟨1/2, 1/2, 1/2, 1, 0, 0, 1, 1, 2⟩], [⟨1, 2, 3, 1, 1⟩],
        some [⟨1, 1/2, 3/4⟩]⟩ ∧
    ([⟨1/2, 1/2, 1/2, 1, 0, 0, 1, 1, 2⟩] : List VertexRecord).length =
      (((["h1", "h2", "h3", "0.5 0.5 0.5 1.0 0.0 0.0 1 1 2"] : List String).drop 3).filter
        (fun l => pyStrip l ≠ "")).length ∧
    ([⟨1, 2, 3, 1, 1⟩] : List FaceRecord).length =
      (((["h1", "h2", "h3", "1 2 3 1 1"] : List String).drop 3).filter
        (fun l => pyStrip l ≠ "")).length ∧
    ([⟨1, 1/2, 3/4⟩] : List AreaRecord).length =
      (((["h", "1 0.5 0.75"] : List String).drop 1).filter
        (fun l => pyStrip l ≠ "")).length := by
  have h := C8_from_files_record_per_line ["log line"]
    ["h1", "h2", "h3", "0.5 0.5 0.5 1.0 0.0 0.0 1 1 2"]
    ["h1", "h2", "h3", "1 2 3 1 1"]
    ["h", "1 0.5 0.75"]
    [⟨1/2, 1/2, 1/2, 1, 0, 0, 1, 1, 2⟩] [⟨1, 2, 3, 1, 1⟩] [⟨1, 1/2, 3/4⟩]
    (by decide) (by decide) (by decide)
  exact ⟨h.1, h.2.1, h.2.2.1, h.2.2.2.1⟩
